import Mathlib

/-!
Shallow embedding of the `apps/api` backend (users, tags, resources over a
DynamoDB-backed storage layer) and proofs about its specification.

Storage is modelled as three lists of items (the three DynamoDB tables).
A DynamoDB item attribute that may be absent (dropped by
`serialize_dynamodb_item` when `None`, or simply never written) is an
`Option`.  `put_item` semantics (overwrite the item with the same key, else
insert) and `get_item` (first item with the key) are modelled explicitly.
-/

namespace MethodKnow

/-- A row of the users table (`dynamodb.create_user` always writes all five
attributes, so none is optional). -/
structure UserItem where
  user_id : String
  first_name : String
  last_name : String
  email : String
  password : String
deriving DecidableEq, Repr

/-- A row of the tags table (`dynamodb.create_tag`). -/
structure TagItem where
  tag_id : String
  name : String
deriving DecidableEq, Repr

/-- A row of the resources table (`dynamodb.create_resource`).  `url`, `code`,
`author` are only present for some variants; `created_at` is stamped at
creation (kept as the raw ISO string; its datetime parsing is content-free
for the properties below). -/
structure ResourceItem where
  resource_id : String
  title : String
  description : String
  type_ : String
  user_id : String
  tag_ids : List String
  url : Option String
  code : Option String
  author : Option String
  created_at : Option String
deriving DecidableEq, Repr

/-- The three tables. -/
structure Storage where
  users : List UserItem
  tags : List TagItem
  resources : List ResourceItem
deriving DecidableEq, Repr

/-- DynamoDB `put_item`: overwrite the row with the same key, else append. -/
def putBy (key : α → String) (l : List α) (a : α) : List α :=
  if l.any (fun x => key x == key a) then
    l.map (fun x => if key x == key a then a else x)
  else
    l ++ [a]

/-- `dynamodb.get_user_by_id`: `get_item` on the users table. -/
def get_user_by_id (st : Storage) (uid : String) : Option UserItem :=
  st.users.find? (fun u => u.user_id == uid)

/-- `dynamodb.get_user_by_email`: query of the `email-index` GSI, first hit. -/
def get_user_by_email (st : Storage) (email : String) : Option UserItem :=
  st.users.find? (fun u => u.email == email)

/-- `dynamodb.get_tag_by_id`: `get_item` on the tags table. -/
def get_tag_by_id (st : Storage) (tid : String) : Option TagItem :=
  st.tags.find? (fun t => t.tag_id == tid)

/-- `dynamodb.get_resource_by_id`: `get_item` on the resources table. -/
def get_resource_by_id (st : Storage) (rid : String) : Option ResourceItem :=
  st.resources.find? (fun r => r.resource_id == rid)

/-- `dynamodb.get_tags_by_ids`: one `get_item` per id, keeping the hits in
order and silently dropping ids with no row; `[]` short-circuits to `[]`
(the explicit `if not tag_ids` guard in the source coincides with the
general loop on `[]`). -/
def get_tags_by_ids (st : Storage) (tag_ids : List String) : List TagItem :=
  tag_ids.filterMap (fun tid => get_tag_by_id st tid)

/-! ### Entity schemas (Pydantic models of `models/resource.py`, `models/user.py`,
`models/tag.py`) -/

/-- The discriminated input union `ResourceModelInput`
(`ArticleResourceInput` / `CodeSnippetResourceInput` / `BookResourceInput` /
`CourseResourceInput`).  All carry `title`, `description`, `tag_ids` from
`ResourceBaseInput`; an article additionally has `url`, a code snippet `code`;
the book and course inputs declare **no** extra field (in particular no
`author` and no owner). -/
inductive ResourceModelInput where
  | article (title description : String) (tag_ids : List String) (url : String)
  | code_snippet (title description : String) (tag_ids : List String) (code : String)
  | book (title description : String) (tag_ids : List String)
  | course (title description : String) (tag_ids : List String)
deriving DecidableEq, Repr

namespace ResourceModelInput

def title : ResourceModelInput → String
  | .article t _ _ _ => t
  | .code_snippet t _ _ _ => t
  | .book t _ _ => t
  | .course t _ _ => t

def description : ResourceModelInput → String
  | .article _ d _ _ => d
  | .code_snippet _ d _ _ => d
  | .book _ d _ => d
  | .course _ d _ => d

def tag_ids : ResourceModelInput → List String
  | .article _ _ ts _ => ts
  | .code_snippet _ _ ts _ => ts
  | .book _ _ ts => ts
  | .course _ _ ts => ts

/-- The `type` discriminator literal of the input. -/
def typeStr : ResourceModelInput → String
  | .article _ _ _ _ => "article"
  | .code_snippet _ _ _ _ => "code_snippet"
  | .book _ _ _ => "book"
  | .course _ _ _ => "course"

/-- `'url' in resource.model_dump(...)`: the dumped dict has a `url` key
exactly for the article variant, and then its value. -/
def urlField : ResourceModelInput → Option String
  | .article _ _ _ u => some u
  | _ => none

/-- `'code' in resource.model_dump(...)`: present exactly for code snippets. -/
def codeField : ResourceModelInput → Option String
  | .code_snippet _ _ _ c => some c
  | _ => none

/-- `'author' in resource.model_dump(...)`: no input variant declares an
`author` field, so the key is never present in the dump. -/
def authorField : ResourceModelInput → Option String
  | _ => none

end ResourceModelInput

/-- `UserResponse` (user without password, as returned by the API). -/
structure UserResponse where
  id : String
  first_name : String
  last_name : String
  email : String
deriving DecidableEq, Repr

/-- Build the `UserResponse` for a stored user item, as each router does. -/
def userResponseOf (u : UserItem) : UserResponse :=
  { id := u.user_id, first_name := u.first_name, last_name := u.last_name
    email := u.email }

/-- `TagModel` (`models/tag.py`). -/
structure TagModel where
  id : String
  name : String
deriving DecidableEq, Repr

/-- The fields shared by every output variant: exactly what `ResourceBase`
declares (`id`, `title`, `description`, `user`, `tags`).  The `base_data`
dict of `_resource_item_to_model` also passes a `created_at` kwarg, but
`ResourceBase` declares no such field and pydantic's default
`extra='ignore'` silently discards undeclared kwargs, so no API output
carries it. -/
structure ResourceBaseData where
  id : String
  title : String
  description : String
  user : UserResponse
  tags : List TagModel
deriving DecidableEq, Repr

/-- The discriminated output union `ResourceModel`
(`ArticleResource` / `CodeSnippetResource` / `BookResource` /
`CourseResource`).  `BookResource` and `CourseResource` declare **no** extra
field: the `author=` kwarg the materializer passes is an undeclared extra
that pydantic silently drops, so a book/course output consists of the base
fields only. -/
inductive ResourceModel where
  | article (base : ResourceBaseData) (url : String)
  | code_snippet (base : ResourceBaseData) (code : String)
  | book (base : ResourceBaseData)
  | course (base : ResourceBaseData)
deriving DecidableEq, Repr

namespace ResourceModel

def base : ResourceModel → ResourceBaseData
  | .article b _ => b
  | .code_snippet b _ => b
  | .book b => b
  | .course b => b

def typeStr : ResourceModel → String
  | .article _ _ => "article"
  | .code_snippet _ _ => "code_snippet"
  | .book _ => "book"
  | .course _ => "course"

/-- The `url` field when the variant has one. -/
def urlField : ResourceModel → Option String
  | .article _ u => some u
  | _ => none

/-- The `code` field when the variant has one. -/
def codeField : ResourceModel → Option String
  | .code_snippet _ c => some c
  | _ => none

end ResourceModel

/-! ### Error taxonomy (the `HTTPException` / `ValueError` raise sites) -/

/-- One constructor per raise site relevant to the claims. -/
inductive ApiError where
  /-- 404 `"Resource not found"`. -/
  | resourceNotFound
  /-- 404 `"User not found"`. -/
  | userNotFound
  /-- 403 `"You can only update your own resources"`. -/
  | forbiddenUpdate
  /-- 403 `"You can only delete your own resources"`. -/
  | forbiddenDelete
  /-- 400 `f"Tags {missing_ids} do not exist"`, carrying the missing ids. -/
  | tagsDoNotExist (missing_ids : List String)
  /-- 404 `"User not found for resource"` raised by `_resource_item_to_model`. -/
  | userNotFoundForResource
  /-- 400 `"Email already registered"`. -/
  | emailAlreadyRegistered
  /-- 401 `"Invalid email or password"`. -/
  | invalidCredentials
  /-- 401 raised by `get_current_user`, with the detail string. -/
  | unauthorized (detail : String)
  /-- `ValueError(f"Unknown resource type: {t}")` in `_resource_item_to_model`. -/
  | unknownResourceType (t : String)
deriving DecidableEq, Repr

/-- Whether an error is one of the 403 (forbidden) responses. -/
def ApiError.isForbidden : ApiError → Bool
  | .forbiddenUpdate => true
  | .forbiddenDelete => true
  | _ => false

/-! ### The resource materializer and the resources router
(`routers/resources.py`, resource operations of `services/dynamodb.py`) -/

/-- `_resource_item_to_model` is split below into named pieces for its local
dicts: this is its `tag_items`/`tags` computation (bulk fetch when the stored
tag-id list is non-empty; `get_tags_by_ids` silently omits missing tags). -/
def materializedTags (st : Storage) (item : ResourceItem) : List TagModel :=
  (if item.tag_ids.isEmpty then [] else get_tags_by_ids st item.tag_ids).map
    (fun t => TagModel.mk t.tag_id t.name)

/-- The retained part of the `base_data` dict of `_resource_item_to_model`,
for a resolved owner (the dict's `created_at` kwarg is an extra that
`ResourceBase` does not declare, discarded by pydantic on construction). -/
def materializedBase (st : Storage) (item : ResourceItem) (u : UserItem) :
    ResourceBaseData :=
  { id := item.resource_id, title := item.title, description := item.description
    user := userResponseOf u, tags := materializedTags st item }

/-- `_resource_item_to_model`: resolve the owner (hard 404 on a dangling user
id, never a silent null), build the base data, then dispatch on the stored
`type` string, defaulting an absent `url`/`code` to `''`; an unknown type
raises `ValueError`.  For book/course the source passes
`author=resource_item.get('author')`, but `BookResource`/`CourseResource`
declare no `author` field, so pydantic (default `extra='ignore'`) silently
drops the kwarg: the stored author never reaches the output. -/
def resource_item_to_model (st : Storage) (item : ResourceItem) :
    Except ApiError ResourceModel :=
  match get_user_by_id st item.user_id with
  | none => .error .userNotFoundForResource
  | some u =>
    let base := materializedBase st item u
    if item.type_ == "article" then .ok (.article base (item.url.getD ""))
    else if item.type_ == "code_snippet" then .ok (.code_snippet base (item.code.getD ""))
    else if item.type_ == "book" then .ok (.book base)
    else if item.type_ == "course" then .ok (.course base)
    else .error (.unknownResourceType item.type_)

/-- The `resource_data` / `update_data` dict assembled by the router: common
fields, the caller-independent `tag_ids`, and the optional variant fields.
An owner (`user_id`) appears only in the creation dict, never in the update
dict. -/
structure ResourceData where
  title : String
  description : String
  type_ : String
  tag_ids : List String
  url : Option String
  code : Option String
  author : Option String
deriving DecidableEq, Repr

/-- Assemble `resource_data` from an input payload, as both handlers do:
`model_dump(exclude=["tag_ids"])` keeps `title`, `description`, `type` and the
variant's own extra key, and the `if 'url' in resource_dict` chain copies the
extra key over when present. -/
def resourceDataOf (input : ResourceModelInput) : ResourceData :=
  { title := input.title, description := input.description
    type_ := input.typeStr, tag_ids := input.tag_ids
    url := input.urlField, code := input.codeField, author := input.authorField }

/-- `dynamodb.create_resource`: assign the fresh id, stamp `created_at`, copy
the optional fields when present (`serialize_dynamodb_item` then drops
nothing further since absent fields are already absent), and `put_item`. -/
def dyn_create_resource (st : Storage) (fresh_id created_at : String)
    (d : ResourceData) (user_id : String) : ResourceItem × Storage :=
  let item : ResourceItem :=
    { resource_id := fresh_id, title := d.title, description := d.description
      type_ := d.type_, user_id := user_id, tag_ids := d.tag_ids
      url := d.url, code := d.code, author := d.author
      created_at := some created_at }
  (item, { st with resources := putBy ResourceItem.resource_id st.resources item })

/-- Apply an `update_item ... SET` built from `update_data` to a stored row:
every non-`None` entry overwrites (`title`, `description`, `type`, `tag_ids`
are always present; `url`/`code`/`author` only when the input variant carries
them); `resource_id`, `user_id` and `created_at` are never in `update_data`,
hence untouched. -/
def applyResourceUpdate (r : ResourceItem) (d : ResourceData) : ResourceItem :=
  { r with title := d.title, description := d.description, type_ := d.type_
           tag_ids := d.tag_ids
           url := match d.url with | some v => some v | none => r.url
           code := match d.code with | some v => some v | none => r.code
           author := match d.author with | some v => some v | none => r.author }

/-- `dynamodb.update_resource` with `ReturnValues='ALL_NEW'`.  The router only
calls it on a key it has just fetched, so the missing-key (DynamoDB upsert)
branch is unreachable from the handlers and modelled as a no-op. -/
def dyn_update_resource (st : Storage) (rid : String) (d : ResourceData) :
    Option ResourceItem × Storage :=
  match st.resources.find? (fun r => r.resource_id == rid) with
  | none => (none, st)
  | some r =>
    (some (applyResourceUpdate r d),
     { st with resources :=
         st.resources.map (fun x => if x.resource_id == rid then applyResourceUpdate x d else x) })

/-- The tag-existence check shared verbatim by `create_resource` and
`update_resource`: when `tag_ids` is non-empty and the bulk fetch comes back
short, compute the ids absent from the fetched set.  `some missing` means the
handler raises the 400; `none` means the check passes. -/
def validateTagIds (st : Storage) (tag_ids : List String) : Option (List String) :=
  if tag_ids.isEmpty then none
  else if (get_tags_by_ids st tag_ids).length == tag_ids.length then none
  else
    some (tag_ids.filter (fun tid =>
      !(((get_tags_by_ids st tag_ids).map (fun t => t.tag_id)).contains tid)))

/-- `POST /resources` (`create_resource` handler): validate tag existence,
persist with the authenticated caller as owner, then materialize the stored
item.  The storage component of the result is the table state after the
handler (unchanged when the 400 fires before the write). -/
def create_resource (st : Storage) (current_user : UserItem)
    (input : ResourceModelInput) (fresh_id created_at : String) :
    Except ApiError ResourceModel × Storage :=
  match validateTagIds st input.tag_ids with
  | some missing => (.error (.tagsDoNotExist missing), st)
  | none =>
    let (item, st') :=
      dyn_create_resource st fresh_id created_at (resourceDataOf input) current_user.user_id
    (resource_item_to_model st' item, st')

/-- `PUT /resources/{id}` (`update_resource` handler): 404 when the id is
unknown, 403 when the stored `user_id` differs from the caller's, then the
same tag validation, the `SET` update, and materialization of the updated
item. -/
def update_resource (st : Storage) (resource_id : String)
    (input : ResourceModelInput) (current_user : UserItem) :
    Except ApiError ResourceModel × Storage :=
  match get_resource_by_id st resource_id with
  | none => (.error .resourceNotFound, st)
  | some existing =>
    if !(existing.user_id == current_user.user_id) then (.error .forbiddenUpdate, st)
    else
      match validateTagIds st input.tag_ids with
      | some missing => (.error (.tagsDoNotExist missing), st)
      | none =>
        match dyn_update_resource st resource_id (resourceDataOf input) with
        | (none, st') => (.error .resourceNotFound, st')
        | (some updated, st') => (resource_item_to_model st' updated, st')

/-- The claim set written by `create_access_token`: `sub`, `exp`, `iat`
(Unix seconds). -/
structure JwtPayload where
  sub : String
  exp : Int
  iat : Int
deriving DecidableEq, Repr

/-- A bearer token: either a payload signed under a key, or bytes that do not
decode as a JWT at all (this also covers the empty/whitespace string rejected
up front by `verify_token`). -/
inductive Token where
  | signed (payload : JwtPayload) (key : String)
  | malformed (raw : String)
deriving DecidableEq, Repr

/-- The subject claim of a decodable token. -/
def Token.sub? : Token → Option String
  | .signed p _ => some p.sub
  | .malformed _ => none

/-- The two `ValueError` classifications raised by `verify_token`: an expired
signature, or any decode/invalid-token failure (forged signature, malformed
blob, empty token). -/
inductive TokenError where
  | expired
  | invalid
deriving DecidableEq, Repr

/-- The `ValueError` message attached to each classification
(`"Token has expired"` vs the decode-error text). -/
def TokenError.detail : TokenError → String
  | .expired => "Token has expired"
  | .invalid => "Token decode error"

/-- `JWT_EXPIRATION_HOURS = 24`, as seconds. -/
def JWT_EXPIRATION_SECONDS : Int := 24 * 3600

/-- `create_access_token`: sign `{sub := user_id, exp := now + 24h, iat := now}`
under the server key. -/
def create_access_token (serverKey : String) (now : Int) (user_id : String) : Token :=
  .signed { sub := user_id, exp := now + JWT_EXPIRATION_SECONDS, iat := now } serverKey

/-- `verify_token`: `jwt.decode` with `verify_signature` and `verify_exp` on
and `verify_iat` off.  Signature failure and malformed input raise the
invalid classification; a valid signature whose `exp` lies strictly in the
past (PyJWT: `exp < now` with zero leeway) raises the expired one; `iat` is
never consulted. -/
def verify_token (serverKey : String) (now : Int) (token : Token) :
    Except TokenError JwtPayload :=
  match token with
  | .malformed _ => .error .invalid
  | .signed payload key =>
    if !(key == serverKey) then .error .invalid
    else if payload.exp < now then .error .expired
    else .ok payload

/-- `get_current_user`: verify the bearer token (any `ValueError` becomes a
401 carrying its message), reject an empty `sub`, and load the user row
(missing row is also a 401). -/
def get_current_user (st : Storage) (serverKey : String) (now : Int)
    (token : Token) : Except ApiError UserItem :=
  match verify_token serverKey now token with
  | .error e => .error (.unauthorized e.detail)
  | .ok payload =>
    if payload.sub == "" then
      .error (.unauthorized "Invalid token payload: missing user ID")
    else
      match get_user_by_id st payload.sub with
      | none => .error (.unauthorized ("User not found for ID: " ++ payload.sub))
      | some item => .ok item

/-- The hashlib/bcrypt primitives used by `hash_password` / `verify_password`,
kept abstract: `sha256hex` is the fixed-output pre-digest, `bcryptHashpw`
takes the digest and a generated salt, `bcryptCheckpw` the digest and a
stored hash. -/
structure HashPrimitives where
  sha256hex : String → String
  bcryptHashpw : String → String → String
  bcryptCheckpw : String → String → Bool

/-- The bcrypt library contract: checking a digest against its own salted
hash succeeds. -/
def HashPrimitives.roundTrip (hp : HashPrimitives) : Prop :=
  ∀ digest salt, hp.bcryptCheckpw digest (hp.bcryptHashpw digest salt) = true

/-- `hash_password`: SHA-256 pre-digest, then bcrypt with a fresh salt
(the salt drawn by `bcrypt.gensalt()` is passed in explicitly). -/
def hash_password (hp : HashPrimitives) (salt password : String) : String :=
  hp.bcryptHashpw (hp.sha256hex password) salt

/-- `verify_password`: pre-digest the candidate the same way, then
`bcrypt.checkpw` against the stored hash. -/
def verify_password (hp : HashPrimitives) (plain hashed : String) : Bool :=
  hp.bcryptCheckpw (hp.sha256hex plain) hashed

/-! ### The users router (`routers/users.py`, user operations of
`services/dynamodb.py`) -/

/-- The `UserModel` request body (signup and update). -/
structure UserModel where
  first_name : String
  last_name : String
  email : String
  password : String
deriving DecidableEq, Repr

/-- `dynamodb.create_user`: assign the fresh id and `put_item` all five
attributes. -/
def dyn_create_user (st : Storage) (fresh_id : String)
    (first_name last_name email password : String) : UserItem × Storage :=
  let item : UserItem :=
    { user_id := fresh_id, first_name := first_name, last_name := last_name
      email := email, password := password }
  (item, { st with users := putBy UserItem.user_id st.users item })

/-- Apply the `update_item ... SET` of `dynamodb.update_user`: all four
fields of `update_data` are non-`None` strings, so all four overwrite;
`user_id` never appears in `update_data`. -/
def applyUserUpdate (u : UserItem)
    (first_name last_name email password : String) : UserItem :=
  { u with first_name := first_name, last_name := last_name, email := email
           password := password }

/-- `dynamodb.update_user` with `ReturnValues='ALL_NEW'` (missing-key upsert
branch unreachable from the handler, as for resources). -/
def dyn_update_user (st : Storage) (uid : String)
    (first_name last_name email password : String) : Option UserItem × Storage :=
  match st.users.find? (fun u => u.user_id == uid) with
  | none => (none, st)
  | some u =>
    (some (applyUserUpdate u first_name last_name email password),
     { st with users :=
         st.users.map (fun x =>
           if x.user_id == uid then applyUserUpdate x first_name last_name email password
           else x) })

/-- `dynamodb.delete_user`: `delete_item` by key. -/
def dyn_delete_user (st : Storage) (uid : String) : Storage :=
  { st with users := st.users.filter (fun u => !(u.user_id == uid)) }

/-- Login / signup response body: the password-free user and the token. -/
structure AuthResponse where
  user : UserResponse
  token : Token
deriving DecidableEq, Repr

/-- `POST /users` (`create_user` handler, signup): 400 when the email is
already registered, else store the user with the bcrypt-hashed SHA-256
pre-digest as password and issue a token for the fresh id. -/
def signup (hp : HashPrimitives) (serverKey : String) (now : Int)
    (st : Storage) (user : UserModel) (fresh_id salt : String) :
    Except ApiError AuthResponse × Storage :=
  match get_user_by_email st user.email with
  | some _ => (.error .emailAlreadyRegistered, st)
  | none =>
    let (item, st') := dyn_create_user st fresh_id user.first_name user.last_name
      user.email (hash_password hp salt user.password)
    let token := create_access_token serverKey now item.user_id
    (.ok { user := userResponseOf item, token := token }, st')

/-- `POST /users/login` (`login` handler): look the user up by email, verify
the password, and issue a token; both failure modes are the same 401. -/
def login (hp : HashPrimitives) (serverKey : String) (now : Int)
    (st : Storage) (email password : String) : Except ApiError AuthResponse :=
  match get_user_by_email st email with
  | none => .error .invalidCredentials
  | some item =>
    if !(verify_password hp password item.password) then .error .invalidCredentials
    else
      .ok { user := userResponseOf item
            token := create_access_token serverKey now item.user_id }

/-- `PUT /users/{id}` (`update_user` handler): 404 when the target id is
unknown, 400 when the email is being changed to one already registered, else
overwrite all four fields (password re-hashed).  The authenticated caller is
required but never compared to the target. -/
def update_user (hp : HashPrimitives) (st : Storage) (user_id : String)
    (user : UserModel) (_current_user : UserItem) (salt : String) :
    Except ApiError UserResponse × Storage :=
  match get_user_by_id st user_id with
  | none => (.error .userNotFound, st)
  | some existing =>
    if !(user.email == existing.email) && (get_user_by_email st user.email).isSome then
      (.error .emailAlreadyRegistered, st)
    else
      match dyn_update_user st user_id user.first_name user.last_name user.email
        (hash_password hp salt user.password) with
      | (none, st') => (.error .userNotFound, st')
      | (some updated, st') => (.ok (userResponseOf updated), st')

/-- `DELETE /users/{id}` (`delete_user` handler): 404 when the target id is
unknown, else hard delete.  The authenticated caller is required but never
compared to the target. -/
def delete_user (st : Storage) (user_id : String) (_current_user : UserItem) :
    Except ApiError Unit × Storage :=
  match get_user_by_id st user_id with
  | none => (.error .userNotFound, st)
  | some _ => (.ok (), dyn_delete_user st user_id)

/-! ### Helper lemmas about lists, `putBy` and the tag validation -/

theorem length_filterMap_eq_count {α β : Type _} (f : α → Option β) (l : List α) :
    (l.filterMap f).length = (l.filter (fun a => (f a).isSome)).length := by
  induction l with
  | nil => rfl
  | cons a t ih => cases h : f a <;> simp [List.filterMap_cons, List.filter_cons, h, ih]

theorem length_filterMap_of_all_isSome {α β : Type _} (f : α → Option β) (l : List α)
    (h : ∀ a ∈ l, (f a).isSome) : (l.filterMap f).length = l.length := by
  induction l with
  | nil => rfl
  | cons a t ih =>
    have ha := h a (List.mem_cons_self a t)
    cases hfa : f a with
    | none => rw [hfa] at ha; simp at ha
    | some b =>
      simp [List.filterMap_cons, hfa,
        ih (fun x hx => h x (List.mem_cons_of_mem a hx))]

theorem length_filterMap_lt_of_none {α β : Type _} (f : α → Option β) (l : List α)
    (a : α) (ha : a ∈ l) (hfa : f a = none) :
    (l.filterMap f).length < l.length := by
  induction l with
  | nil => cases ha
  | cons b t ih =>
    rcases List.mem_cons.mp ha with rfl | hat
    · simp only [List.filterMap_cons, hfa, List.length_cons]
      exact Nat.lt_succ_of_le (List.length_filterMap_le f t)
    · cases hfb : f b with
      | none =>
        simp only [List.filterMap_cons, hfb, List.length_cons]
        exact Nat.lt_succ_of_lt (ih hat)
      | some c =>
        simp only [List.filterMap_cons, hfb, List.length_cons]
        exact Nat.succ_lt_succ (ih hat)

theorem find?_map_const {α : Type _} (p : α → Bool) (a : α) (hp : p a = true) :
    ∀ l : List α, l.any p = true →
      (l.map (fun x => if p x then a else x)).find? p = some a := by
  intro l
  induction l with
  | nil => intro h; simp at h
  | cons b t ih =>
    intro h
    cases hb : p b with
    | true => simp [List.find?_cons, hb, hp]
    | false =>
      have ht : t.any p = true := by simpa [List.any_cons, hb] using h
      simp [List.find?_cons, hb, ih ht]

theorem find?_append_singleton {α : Type _} (p : α → Bool) (a : α) (hp : p a = true) :
    ∀ l : List α, l.find? p = none → (l ++ [a]).find? p = some a := by
  intro l
  induction l with
  | nil => intro _; simp [List.find?_cons, hp]
  | cons b t ih =>
    intro h
    have hb : p b = false := by
      simpa using List.find?_eq_none.mp h b (List.mem_cons_self b t)
    have ht : t.find? p = none := by simpa [List.find?_cons, hb] using h
    simp [List.find?_cons, hb, ih ht]

theorem find?_map_overwrite {α : Type _} (q p : α → Bool) (a : α) (hpa : p a = true) :
    ∀ l : List α, l.any q = true → l.find? p = none →
      (l.map (fun x => if q x then a else x)).find? p = some a := by
  intro l
  induction l with
  | nil => intro h _; simp at h
  | cons b t ih =>
    intro hany hnone
    have hb : p b = false := by
      simpa using List.find?_eq_none.mp hnone b (List.mem_cons_self b t)
    have htnone : t.find? p = none := by simpa [List.find?_cons, hb] using hnone
    cases hqb : q b with
    | true => simp [List.find?_cons, hqb, hpa]
    | false =>
      have htany : t.any q = true := by simpa [List.any_cons, hqb] using hany
      simp [List.find?_cons, hqb, hb, ih htany htnone]

/-- `put_item` then `get_item` at the written key returns the written row. -/
theorem find?_putBy_self {α : Type _} (key : α → String) (l : List α) (a : α) :
    (putBy key l a).find? (fun x => key x == key a) = some a := by
  have hp : (fun x => key x == key a) a = true := by simp
  unfold putBy
  by_cases h : l.any (fun x => key x == key a) = true
  · simpa [h] using find?_map_const (fun x => key x == key a) a hp l h
  · have h' : l.find? (fun x => key x == key a) = none := by
      rw [List.find?_eq_none]
      intro x hx hpx
      exact h (List.any_eq_true.mpr ⟨x, hx, hpx⟩)
    simpa [h] using find?_append_singleton (fun x => key x == key a) a hp l h'

/-- `put_item` then a secondary lookup that had no hit before finds the
written row, when the row satisfies the lookup. -/
theorem find?_putBy_of_none {α : Type _} (key : α → String) (p : α → Bool)
    (l : List α) (a : α) (hl : l.find? p = none) (hpa : p a = true) :
    (putBy key l a).find? p = some a := by
  unfold putBy
  by_cases h : l.any (fun x => key x == key a) = true
  · simpa [h] using find?_map_overwrite (fun x => key x == key a) p a hpa l h hl
  · simpa [h] using find?_append_singleton p a hpa l hl

/-- A key-preserving in-place rewrite at key `k` commutes with `get_item`
at `k`. -/
theorem find?_map_replace {α : Type _} (key : α → String) (k : String) (g : α → α)
    (hg : ∀ x, key (g x) = key x) (l : List α) :
    (l.map (fun x => if key x == k then g x else x)).find? (fun x => key x == k)
      = (l.find? (fun x => key x == k)).map g := by
  have hf : ∀ x, key (if key x == k then g x else x) = key x := by
    intro x
    cases hx : key x == k with
    | true => simp [hg]
    | false => simp
  rw [List.find?_map]
  have hp : ((fun x => key x == k) ∘ fun x => if key x == k then g x else x)
      = (fun x => key x == k) := by
    funext x
    show (key (if key x == k then g x else x) == k) = (key x == k)
    rw [hf x]
  rw [hp]
  cases hfind : l.find? (fun x => key x == k) with
  | none => rfl
  | some r =>
    have hr : (key r == k) = true := by
      have := List.find?_some hfind
      simpa using this
    simp only [Option.map_some']
    rw [if_pos hr]

/-- `delete_item` then `get_item` at the deleted key finds nothing. -/
theorem find?_filter_ne {α : Type _} (key : α → String) (k : String) (l : List α) :
    (l.filter (fun x => !(key x == k))).find? (fun x => key x == k) = none := by
  rw [List.find?_eq_none]
  intro x hx
  have h2 : (key x == k) = false := by simpa using (List.mem_filter.mp hx).2
  simp [h2]

/-- `get_tag_by_id` hits are rows whose `tag_id` is the queried id. -/
theorem get_tag_by_id_some_tag_id {st : Storage} {tid : String} {t : TagItem}
    (h : get_tag_by_id st tid = some t) : t.tag_id = tid := by
  have := List.find?_some h
  simpa using this

/-- The tag-existence check passes when every id has a row. -/
theorem validateTagIds_eq_none {st : Storage} {tag_ids : List String}
    (h : ∀ tid ∈ tag_ids, (get_tag_by_id st tid).isSome) :
    validateTagIds st tag_ids = none := by
  unfold validateTagIds
  by_cases he : tag_ids.isEmpty
  · simp [he]
  · have hlen : (get_tags_by_ids st tag_ids).length = tag_ids.length :=
      length_filterMap_of_all_isSome _ _ h
    simp [he, hlen]

/-- When some id has no row the check fails, returning exactly the ids with
no row (in their order of first appearance in `tag_ids`). -/
theorem validateTagIds_eq_some {st : Storage} {tag_ids : List String}
    {tid : String} (htid : tid ∈ tag_ids) (hnone : get_tag_by_id st tid = none) :
    ∃ missing, validateTagIds st tag_ids = some missing ∧
      ∀ x, x ∈ missing ↔ x ∈ tag_ids ∧ get_tag_by_id st x = none := by
  have hne : tag_ids ≠ [] := by rintro rfl; cases htid
  have hlt : (get_tags_by_ids st tag_ids).length < tag_ids.length :=
    length_filterMap_lt_of_none _ _ tid htid hnone
  have hbeq : ((get_tags_by_ids st tag_ids).length == tag_ids.length) = false := by
    exact beq_eq_false_iff_ne.mpr (Nat.ne_of_lt hlt)
  have hemp : tag_ids.isEmpty = false := by
    cases tag_ids with
    | nil => cases hne rfl
    | cons a t => rfl
  refine ⟨tag_ids.filter (fun x =>
      !(((get_tags_by_ids st tag_ids).map (fun t => t.tag_id)).contains x)), ?_, ?_⟩
  · unfold validateTagIds
    rw [hemp, hbeq]
    rfl
  · intro x
    constructor
    · intro hx
      have hx' := List.mem_filter.mp hx
      refine ⟨hx'.1, ?_⟩
      cases hfound : get_tag_by_id st x with
      | none => rfl
      | some t =>
        exfalso
        have hmem : t ∈ get_tags_by_ids st tag_ids :=
          List.mem_filterMap.mpr ⟨x, hx'.1, hfound⟩
        have hcontains := hx'.2
        simp only [Bool.not_eq_true'] at hcontains
        rw [List.contains_eq_any_beq] at hcontains
        have : ((get_tags_by_ids st tag_ids).map (fun t => t.tag_id)).any
            (fun y => x == y) = true := by
          refine List.any_eq_true.mpr ⟨t.tag_id, ?_, ?_⟩
          · exact List.mem_map.mpr ⟨t, hmem, rfl⟩
          · rw [get_tag_by_id_some_tag_id hfound]
            simp
        rw [this] at hcontains
        cases hcontains
    · rintro ⟨hxmem, hxnone⟩
      refine List.mem_filter.mpr ⟨hxmem, ?_⟩
      simp only [Bool.not_eq_true', List.contains_eq_any_beq]
      rw [← Bool.not_eq_true]
      intro hany
      rcases List.any_eq_true.mp hany with ⟨y, hy, hxy⟩
      rcases List.mem_map.mp hy with ⟨t, hmem, rfl⟩
      rcases List.mem_filterMap.mp hmem with ⟨i, _, hfi⟩
      have hti := get_tag_by_id_some_tag_id hfi
      have hxt : x = t.tag_id := by simpa using hxy
      rw [hxt, hti, hfi] at hxnone
      cases hxnone

/-- Membership in the materialized tag list: exactly the `TagModel`s of the
resolvable stored tag ids. -/
theorem mem_materializedTags {st : Storage} {item : ResourceItem} (tm : TagModel) :
    tm ∈ materializedTags st item ↔
      ∃ i ∈ item.tag_ids, ∃ t, get_tag_by_id st i = some t ∧
        tm = TagModel.mk t.tag_id t.name := by
  have hsplit : (if item.tag_ids.isEmpty then [] else get_tags_by_ids st item.tag_ids)
      = get_tags_by_ids st item.tag_ids := by
    cases h : item.tag_ids.isEmpty with
    | true =>
      have : item.tag_ids = [] := List.isEmpty_iff.mp h
      simp [this, get_tags_by_ids]
    | false => rfl
  unfold materializedTags
  rw [hsplit]
  simp only [get_tags_by_ids, List.mem_map, List.mem_filterMap]
  constructor
  · rintro ⟨t, ⟨i, hi, hfi⟩, rfl⟩
    exact ⟨i, hi, t, hfi, rfl⟩
  · rintro ⟨i, hi, t, hfi, rfl⟩
    exact ⟨t, ⟨i, hi, hfi⟩, rfl⟩

/-- Materialization of an `article`-typed record. -/
theorem resource_item_to_model_article {st : Storage} {item : ResourceItem}
    {u : UserItem} (hu : get_user_by_id st item.user_id = some u)
    (ht : item.type_ = "article") :
    resource_item_to_model st item
      = .ok (.article (materializedBase st item u) (item.url.getD "")) := by
  unfold resource_item_to_model
  rw [hu, ht]
  simp

/-- Materialization of a `code_snippet`-typed record. -/
theorem resource_item_to_model_code_snippet {st : Storage} {item : ResourceItem}
    {u : UserItem} (hu : get_user_by_id st item.user_id = some u)
    (ht : item.type_ = "code_snippet") :
    resource_item_to_model st item
      = .ok (.code_snippet (materializedBase st item u) (item.code.getD "")) := by
  unfold resource_item_to_model
  rw [hu, ht]
  simp

/-- Materialization of a `book`-typed record: base fields only, the stored
author discarded. -/
theorem resource_item_to_model_book {st : Storage} {item : ResourceItem}
    {u : UserItem} (hu : get_user_by_id st item.user_id = some u)
    (ht : item.type_ = "book") :
    resource_item_to_model st item
      = .ok (.book (materializedBase st item u)) := by
  unfold resource_item_to_model
  rw [hu, ht]
  simp

/-- Materialization of a `course`-typed record: base fields only, the stored
author discarded. -/
theorem resource_item_to_model_course {st : Storage} {item : ResourceItem}
    {u : UserItem} (hu : get_user_by_id st item.user_id = some u)
    (ht : item.type_ = "course") :
    resource_item_to_model st item
      = .ok (.course (materializedBase st item u)) := by
  unfold resource_item_to_model
  rw [hu, ht]
  simp

/-- Materialization of a record with an unknown `type` string. -/
theorem resource_item_to_model_unknown {st : Storage} {item : ResourceItem}
    {u : UserItem} (hu : get_user_by_id st item.user_id = some u)
    (h1 : item.type_ ≠ "article") (h2 : item.type_ ≠ "code_snippet")
    (h3 : item.type_ ≠ "book") (h4 : item.type_ ≠ "course") :
    resource_item_to_model st item = .error (.unknownResourceType item.type_) := by
  unfold resource_item_to_model
  rw [hu]
  have b1 : (item.type_ == "article") = false := beq_eq_false_iff_ne.mpr h1
  have b2 : (item.type_ == "code_snippet") = false := beq_eq_false_iff_ne.mpr h2
  have b3 : (item.type_ == "book") = false := beq_eq_false_iff_ne.mpr h3
  have b4 : (item.type_ == "course") = false := beq_eq_false_iff_ne.mpr h4
  simp [b1, b2, b3, b4]

/-- When materialization succeeds for one of the four known types, the
output's base is `materializedBase`. -/
theorem resource_item_to_model_ok_base {st : Storage} {item : ResourceItem}
    {u : UserItem} (hu : get_user_by_id st item.user_id = some u)
    (ht : item.type_ = "article" ∨ item.type_ = "code_snippet"
       ∨ item.type_ = "book" ∨ item.type_ = "course") :
    ∃ m, resource_item_to_model st item = .ok m
      ∧ m.base = materializedBase st item u ∧ m.typeStr = item.type_ := by
  rcases ht with ht | ht | ht | ht
  · exact ⟨_, resource_item_to_model_article hu ht, rfl, ht.symm⟩
  · exact ⟨_, resource_item_to_model_code_snippet hu ht, rfl, ht.symm⟩
  · exact ⟨_, resource_item_to_model_book hu ht, rfl, ht.symm⟩
  · exact ⟨_, resource_item_to_model_course hu ht, rfl, ht.symm⟩

/-- The `type` literal of every input payload is one of the four known
strings. -/
theorem input_typeStr_known (input : ResourceModelInput) :
    input.typeStr = "article" ∨ input.typeStr = "code_snippet"
      ∨ input.typeStr = "book" ∨ input.typeStr = "course" := by
  cases input
  · left; rfl
  · right; left; rfl
  · right; right; left; rfl
  · right; right; right; rfl

/-- `dynamodb.update_resource` on a key the router has just fetched. -/
theorem dyn_update_resource_of_found {st : Storage} {rid : String}
    {d : ResourceData} {r : ResourceItem}
    (hr : get_resource_by_id st rid = some r) :
    dyn_update_resource st rid d
      = (some (applyResourceUpdate r d),
         { st with resources := st.resources.map (fun x =>
             if x.resource_id == rid then applyResourceUpdate x d else x) }) := by
  unfold dyn_update_resource
  rw [show st.resources.find? (fun x => x.resource_id == rid) = some r from hr]

/-- The update handler, unfolded past the 404 branch. -/
theorem update_resource_eq {st : Storage} {rid : String}
    {input : ResourceModelInput} {caller : UserItem} {r : ResourceItem}
    (hr : get_resource_by_id st rid = some r) :
    update_resource st rid input caller
      = if !(r.user_id == caller.user_id) then (.error .forbiddenUpdate, st)
        else
          match validateTagIds st input.tag_ids with
          | some missing => (.error (.tagsDoNotExist missing), st)
          | none =>
            (resource_item_to_model
               { st with resources := st.resources.map (fun x =>
                   if x.resource_id == rid then
                     applyResourceUpdate x (resourceDataOf input) else x) }
               (applyResourceUpdate r (resourceDataOf input)),
             { st with resources := st.resources.map (fun x =>
                 if x.resource_id == rid then
                   applyResourceUpdate x (resourceDataOf input) else x) }) := by
  unfold update_resource
  rw [hr, dyn_update_resource_of_found hr]

/-- The row written by a successful create: the payload's fields, the fresh
id, the authenticated creator as `user_id`, the creation timestamp. -/
def createdItem (input : ResourceModelInput) (u : UserItem)
    (fresh_id created_at : String) : ResourceItem :=
  { resource_id := fresh_id, title := input.title
    description := input.description, type_ := input.typeStr
    user_id := u.user_id, tag_ids := input.tag_ids
    url := input.urlField, code := input.codeField, author := input.authorField
    created_at := some created_at }

/-- The create handler, unfolded. -/
theorem create_resource_eq (st : Storage) (u : UserItem)
    (input : ResourceModelInput) (fresh_id created_at : String) :
    create_resource st u input fresh_id created_at
      = match validateTagIds st input.tag_ids with
        | some missing => (.error (.tagsDoNotExist missing), st)
        | none =>
          (resource_item_to_model
             { st with resources := (putBy ResourceItem.resource_id st.resources
                 (createdItem input u fresh_id created_at)) }
             (createdItem input u fresh_id created_at),
           { st with resources := (putBy ResourceItem.resource_id st.resources
               (createdItem input u fresh_id created_at)) }) := by
  unfold create_resource dyn_create_resource createdItem
  cases validateTagIds st input.tag_ids <;> rfl

/-- `dynamodb.update_user` on a key the router has just fetched. -/
theorem dyn_update_user_of_found {st : Storage} {uid fn ln em pw : String}
    {tgt : UserItem} (h : get_user_by_id st uid = some tgt) :
    dyn_update_user st uid fn ln em pw
      = (some (applyUserUpdate tgt fn ln em pw),
         { st with users := st.users.map (fun x =>
             if x.user_id == uid then applyUserUpdate x fn ln em pw else x) }) := by
  unfold dyn_update_user
  rw [show st.users.find? (fun x => x.user_id == uid) = some tgt from h]

/-! ### Concrete fixtures used by the witness theorems -/

def wTag : TagItem := { tag_id := "T1", name := "rust" }

def wTag2 : TagItem := { tag_id := "T2", name := "lean" }

def wOwner : UserItem :=
  { user_id := "U1", first_name := "Ada", last_name := "L"
    email := "a@x.com", password := "ph" }

def wOther : UserItem :=
  { user_id := "U2", first_name := "Bob", last_name := "M"
    email := "b@x.com", password := "ph2" }

def wResource : ResourceItem :=
  { resource_id := "R1", title := "X", description := "Y", type_ := "article"
    user_id := "U1", tag_ids := ["T1", "Tgone"], url := some "http://x"
    code := none, author := none, created_at := some "2024-01-01T00:00:00" }

def wStorage : Storage :=
  { users := [wOwner, wOther], tags := [wTag, wTag2], resources := [wResource] }

/-- A stored book record carrying an `author` attribute (such a row can only
arise outside the API's own create/update path, whose inputs have no author
field). -/
def wBookA : ResourceItem :=
  { resource_id := "B1", title := "Vol1", description := "D", type_ := "book"
    user_id := "U1", tag_ids := [], url := none, code := none
    author := some "Knuth", created_at := none }

/-- The same stored book record with the author attribute absent. -/
def wBookB : ResourceItem := { wBookA with author := none }

def wInput : ResourceModelInput := .article "X" "Y" ["T1"] "http://x"

/-- Degenerate but contract-satisfying hash primitives for witnesses. -/
def wHash : HashPrimitives :=
  { sha256hex := fun s => s, bcryptHashpw := fun d s => s ++ d
    bcryptCheckpw := fun _ _ => true }

/-! ### The claims -/

/-- C6: `get_tags_by_ids` returns exactly the records of the queried ids that
exist in storage (membership characterization) and never signals an error for
the missing ones (it is total into a plain list, with no error channel); the
result's length is the number of queried ids that resolve, so callers detect
missing ids by comparing lengths; and the empty input yields the empty
result. -/
theorem get_tags_by_ids_partial (st : Storage) (ids : List String) :
    (∀ t : TagItem, t ∈ get_tags_by_ids st ids ↔
       ∃ i ∈ ids, get_tag_by_id st i = some t)
    ∧ (get_tags_by_ids st ids).length
        = (ids.filter (fun i => (get_tag_by_id st i).isSome)).length
    ∧ get_tags_by_ids st [] = [] := by
  refine ⟨?_, length_filterMap_eq_count _ _, rfl⟩
  intro t
  exact List.mem_filterMap

/-- C2: a resource creation whose `tag_ids` contain at least one id with no
stored Tag is rejected with the validation error naming exactly the missing
ids (a non-empty list), and the storage — in particular the resource
collection — is returned unchanged: nothing is persisted. -/
theorem create_rejects_missing_tags (st : Storage) (u : UserItem)
    (input : ResourceModelInput) (fresh_id created_at : String)
    (h : ∃ tid ∈ input.tag_ids, get_tag_by_id st tid = none) :
    ∃ missing, create_resource st u input fresh_id created_at
        = (.error (.tagsDoNotExist missing), st)
      ∧ missing ≠ []
      ∧ (∀ x, x ∈ missing ↔ x ∈ input.tag_ids ∧ get_tag_by_id st x = none) := by
  rcases h with ⟨tid, htid, hnone⟩
  rcases validateTagIds_eq_some htid hnone with ⟨missing, hval, hchar⟩
  refine ⟨missing, ?_, ?_, hchar⟩
  · unfold create_resource
    rw [hval]
  · intro hemp
    have := (hchar tid).mpr ⟨htid, hnone⟩
    rw [hemp] at this
    cases this

/-- C3: materialization fails hard — the dedicated "User not found for
resource" error, never a silent null owner — when the record's user id has no
stored User; with the owner resolved (and any of the four known types), a
record whose tag-id list contains dangling ids still materializes
successfully, the missing tags simply omitted from the output list. -/
theorem materialize_owner_hard_tags_tolerant (st : Storage) (item : ResourceItem) :
    (get_user_by_id st item.user_id = none →
       resource_item_to_model st item = .error .userNotFoundForResource)
    ∧ (∀ u, get_user_by_id st item.user_id = some u →
        (item.type_ = "article" ∨ item.type_ = "code_snippet"
          ∨ item.type_ = "book" ∨ item.type_ = "course") →
        ∃ m, resource_item_to_model st item = .ok m
          ∧ ∀ tm : TagModel, tm ∈ m.base.tags ↔
              ∃ i ∈ item.tag_ids, ∃ t, get_tag_by_id st i = some t
                ∧ tm = TagModel.mk t.tag_id t.name) := by
  constructor
  · intro h
    unfold resource_item_to_model
    rw [h]
  · intro u hu htype
    rcases resource_item_to_model_ok_base hu htype with ⟨m, hm, hbase, _⟩
    refine ⟨m, hm, ?_⟩
    intro tm
    rw [hbase]
    exact mem_materializedTags tm

/-- C4 (amended): the output variant is selected purely from the stored
`type` string; `article`/`code_snippet` populate their extra field from the
stored one, defaulting an absent `url`/`code` to `""`; a `book`/`course`
output consists of the base fields only — the stored `author` is silently
dropped (pydantic discards the kwarg, which the model does not declare), so
the output is invariant under any change to the stored author; any other
string is an unrecoverable internal error (the record is never dropped or
coerced). -/
theorem materialize_variant_from_type (st : Storage) (item : ResourceItem)
    (u : UserItem) (hu : get_user_by_id st item.user_id = some u) :
    (item.type_ = "article" →
       ∃ m, resource_item_to_model st item = .ok m ∧ m.typeStr = "article"
         ∧ m.urlField = some (item.url.getD "") ∧ m.codeField = none)
    ∧ (item.type_ = "code_snippet" →
       ∃ m, resource_item_to_model st item = .ok m ∧ m.typeStr = "code_snippet"
         ∧ m.codeField = some (item.code.getD "") ∧ m.urlField = none)
    ∧ (item.type_ = "book" →
       resource_item_to_model st item
         = .ok (.book (materializedBase st item u))
       ∧ ∀ a, resource_item_to_model st { item with author := a }
           = .ok (.book (materializedBase st item u)))
    ∧ (item.type_ = "course" →
       resource_item_to_model st item
         = .ok (.course (materializedBase st item u))
       ∧ ∀ a, resource_item_to_model st { item with author := a }
           = .ok (.course (materializedBase st item u)))
    ∧ (item.type_ ≠ "article" → item.type_ ≠ "code_snippet" →
       item.type_ ≠ "book" → item.type_ ≠ "course" →
       resource_item_to_model st item = .error (.unknownResourceType item.type_)) := by
  refine ⟨?_, ?_, ?_, ?_, ?_⟩
  · intro ht
    exact ⟨_, resource_item_to_model_article hu ht, rfl, rfl, rfl⟩
  · intro ht
    exact ⟨_, resource_item_to_model_code_snippet hu ht, rfl, rfl, rfl⟩
  · intro ht
    refine ⟨resource_item_to_model_book hu ht, ?_⟩
    intro a
    exact resource_item_to_model_book
      (show get_user_by_id st ({ item with author := a } : ResourceItem).user_id
          = some u from hu)
      (show ({ item with author := a } : ResourceItem).type_ = "book" from ht)
  · intro ht
    refine ⟨resource_item_to_model_course hu ht, ?_⟩
    intro a
    exact resource_item_to_model_course
      (show get_user_by_id st ({ item with author := a } : ResourceItem).user_id
          = some u from hu)
      (show ({ item with author := a } : ResourceItem).type_ = "course" from ht)
  · intro h1 h2 h3 h4
    exact resource_item_to_model_unknown hu h1 h2 h3 h4

/-- Witness for the amended C4 at a concrete book record carrying a stored
author: the book branch fires and the output is unchanged for every stored
author value. -/
theorem materialize_variant_from_type_witness :
    (get_user_by_id wStorage wBookA.user_id = some wOwner)
    ∧ (resource_item_to_model wStorage wBookA
         = .ok (.book (materializedBase wStorage wBookA wOwner))
       ∧ ∀ a, resource_item_to_model wStorage { wBookA with author := a }
           = .ok (.book (materializedBase wStorage wBookA wOwner))) :=
  ⟨by decide,
   (materialize_variant_from_type wStorage wBookA wOwner (by decide)).2.2.1 rfl⟩

/-- Counterexample to C4 as originally claimed (book/course extra field
`author` "populated from the stored fields", an absent author defaulting to
null): two stored book records identical but for the stored author — present
as `"Knuth"` versus absent — materialize to the very same successful output,
so the output carries no author populated from the stored field and no null
default distinguishable from a dropped value. -/
theorem materialize_book_author_dropped_cex :
    wBookA.author = some "Knuth"
    ∧ wBookB.author = none
    ∧ wBookA.type_ = "book"
    ∧ wBookB = { wBookA with author := none }
    ∧ resource_item_to_model wStorage wBookA
        = resource_item_to_model wStorage wBookB :=
  ⟨rfl, rfl, rfl, rfl, rfl⟩

/-- C10: the persisted owner is the fixed identity of the authenticated
creator — the input union (`ResourceModelInput`) carries no owner field, so a
caller-supplied owner cannot be accepted, and whatever payload is supplied,
a successful create stores `user_id` equal to the creator's id; every update,
whatever its payload and outcome, leaves the stored record's `user_id`
unchanged. -/
theorem resource_owner_fixed (st : Storage) (u : UserItem)
    (input : ResourceModelInput) (fresh_id created_at : String)
    (st2 : Storage) (rid : String) (input2 : ResourceModelInput)
    (caller : UserItem) :
    (∀ m st', create_resource st u input fresh_id created_at = (.ok m, st') →
       ∃ item, get_resource_by_id st' fresh_id = some item
         ∧ item.user_id = u.user_id)
    ∧ (∀ r, get_resource_by_id st2 rid = some r →
       ∀ res st', update_resource st2 rid input2 caller = (res, st') →
         ∃ r', get_resource_by_id st' rid = some r'
           ∧ r'.user_id = r.user_id) := by
  constructor
  · intro m st' heq
    rw [create_resource_eq] at heq
    cases hv : validateTagIds st input.tag_ids with
    | some missing =>
      rw [hv] at heq
      simp at heq
    | none =>
      rw [hv] at heq
      injection heq with h1 h2
      subst h2
      refine ⟨createdItem input u fresh_id created_at, ?_, rfl⟩
      exact find?_putBy_self ResourceItem.resource_id st.resources
        (createdItem input u fresh_id created_at)
  · intro r hr res st' heq
    rw [update_resource_eq hr] at heq
    split at heq
    · injection heq with h1 h2
      subst h2
      exact ⟨r, hr, rfl⟩
    · split at heq
      · injection heq with h1 h2
        subst h2
        exact ⟨r, hr, rfl⟩
      · injection heq with h1 h2
        subst h2
        refine ⟨applyResourceUpdate r (resourceDataOf input2), ?_, rfl⟩
        have hmr := find?_map_replace ResourceItem.resource_id rid
            (fun x => applyResourceUpdate x (resourceDataOf input2))
            (fun x => rfl) st2.resources
        show (st2.resources.map (fun x =>
            if x.resource_id == rid then
              applyResourceUpdate x (resourceDataOf input2) else x)).find?
            (fun x => x.resource_id == rid)
          = some (applyResourceUpdate r (resourceDataOf input2))
        rw [hmr, show st2.resources.find? (fun x => x.resource_id == rid)
            = some r from hr]
        rfl

/-- The user-update handler when the target id is unknown. -/
theorem update_user_none (hp : HashPrimitives) (st : Storage) (uid : String)
    (input : UserModel) (caller : UserItem) (salt : String)
    (h : get_user_by_id st uid = none) :
    update_user hp st uid input caller salt = (.error .userNotFound, st) := by
  unfold update_user
  rw [h]

/-- The user-update handler on an existing target, unfolded. -/
theorem update_user_eq (hp : HashPrimitives) (st : Storage) (uid : String)
    (input : UserModel) (caller : UserItem) (salt : String) {tgt : UserItem}
    (htgt : get_user_by_id st uid = some tgt) :
    update_user hp st uid input caller salt
      = if !(input.email == tgt.email)
           && (get_user_by_email st input.email).isSome then
          (.error .emailAlreadyRegistered, st)
        else
          (.ok (userResponseOf (applyUserUpdate tgt input.first_name
              input.last_name input.email (hash_password hp salt input.password))),
           { st with users := st.users.map (fun x =>
               if x.user_id == uid then
                 applyUserUpdate x input.first_name input.last_name input.email
                   (hash_password hp salt input.password) else x) }) := by
  unfold update_user
  rw [htgt, dyn_update_user_of_found htgt]

/-- The user-delete handler when the target id is unknown. -/
theorem delete_user_none (st : Storage) (uid : String) (caller : UserItem)
    (h : get_user_by_id st uid = none) :
    delete_user st uid caller = (.error .userNotFound, st) := by
  unfold delete_user
  rw [h]

/-- The user-delete handler on an existing target. -/
theorem delete_user_eq (st : Storage) (uid : String) (caller : UserItem)
    {tgt : UserItem} (htgt : get_user_by_id st uid = some tgt) :
    delete_user st uid caller = (.ok (), dyn_delete_user st uid) := by
  unfold delete_user
  rw [htgt]

/-- C7: user update and delete perform no ownership check: the handlers are
entirely independent of the authenticated caller (so a caller whose id
differs from the target behaves identically to the target themselves), they
overwrite an existing target's profile fields, email and re-hashed password
or remove its account outright, and no forbidden error can ever be
produced — unlike resource mutation. -/
theorem user_mutation_no_ownership (hp : HashPrimitives) (st : Storage)
    (uid : String) (input : UserModel) (caller caller2 : UserItem)
    (salt : String) :
    (update_user hp st uid input caller salt
       = update_user hp st uid input caller2 salt
     ∧ delete_user st uid caller = delete_user st uid caller2)
    ∧ (∀ e, (update_user hp st uid input caller salt).1 = .error e →
        e.isForbidden = false)
    ∧ (∀ e, (delete_user st uid caller).1 = .error e → e.isForbidden = false)
    ∧ (∀ tgt, get_user_by_id st uid = some tgt →
        (input.email = tgt.email ∨ get_user_by_email st input.email = none) →
        ∃ st', update_user hp st uid input caller salt
            = (.ok (userResponseOf (applyUserUpdate tgt input.first_name
                input.last_name input.email
                (hash_password hp salt input.password))), st')
          ∧ get_user_by_id st' uid
              = some (applyUserUpdate tgt input.first_name input.last_name
                  input.email (hash_password hp salt input.password)))
    ∧ (∀ tgt, get_user_by_id st uid = some tgt →
        ∃ st', delete_user st uid caller = (.ok (), st')
          ∧ get_user_by_id st' uid = none) := by
  refine ⟨⟨rfl, rfl⟩, ?_, ?_, ?_, ?_⟩
  · intro e he
    cases htgt : get_user_by_id st uid with
    | none =>
      rw [update_user_none hp st uid input caller salt htgt] at he
      have he' : (Except.error ApiError.userNotFound : Except ApiError UserResponse)
          = .error e := he
      injection he' with h1
      rw [← h1]
      rfl
    | some existing =>
      rw [update_user_eq hp st uid input caller salt htgt] at he
      by_cases hc : (!(input.email == existing.email)
          && (get_user_by_email st input.email).isSome) = true
      · rw [if_pos hc] at he
        have he' : (Except.error ApiError.emailAlreadyRegistered
            : Except ApiError UserResponse) = .error e := he
        injection he' with h1
        rw [← h1]
        rfl
      · rw [if_neg hc] at he
        simp at he
  · intro e he
    cases htgt : get_user_by_id st uid with
    | none =>
      rw [delete_user_none st uid caller htgt] at he
      have he' : (Except.error ApiError.userNotFound : Except ApiError Unit)
          = .error e := he
      injection he' with h1
      rw [← h1]
      rfl
    | some existing =>
      rw [delete_user_eq st uid caller htgt] at he
      simp at he
  · intro tgt htgt hemail
    have hcond : ¬ ((!(input.email == tgt.email)
        && (get_user_by_email st input.email).isSome) = true) := by
      rcases hemail with h | h
      · simp [h]
      · simp [h]
    rw [update_user_eq hp st uid input caller salt htgt, if_neg hcond]
    refine ⟨{ st with users := st.users.map (fun x =>
        if x.user_id == uid then
          applyUserUpdate x input.first_name input.last_name input.email
            (hash_password hp salt input.password) else x) }, rfl, ?_⟩
    have hmr := find?_map_replace UserItem.user_id uid
        (fun x => applyUserUpdate x input.first_name input.last_name input.email
          (hash_password hp salt input.password))
        (fun x => rfl) st.users
    show (st.users.map (fun x =>
        if x.user_id == uid then
          applyUserUpdate x input.first_name input.last_name input.email
            (hash_password hp salt input.password) else x)).find?
        (fun x => x.user_id == uid)
      = some (applyUserUpdate tgt input.first_name input.last_name input.email
          (hash_password hp salt input.password))
    rw [hmr, show st.users.find? (fun x => x.user_id == uid)
        = some tgt from htgt]
    rfl
  · intro tgt htgt
    rw [delete_user_eq st uid caller htgt]
    exact ⟨dyn_delete_user st uid, rfl,
      find?_filter_ne UserItem.user_id uid st.users⟩

/-- C8: `verify_token` classifies an expired token (valid signature, `exp`
strictly in the past) with the expired classification, distinct from the
invalid classification produced by a forged signature or a malformed blob;
any verification failure surfaces through `get_current_user` as an
unauthorized error; and the `iat` claim is never verified — `iat` is
universally quantified below, so a future `iat` by itself never fails an
otherwise valid, unexpired token. -/
theorem token_verification_classification (serverKey : String) (now : Int)
    (sub : String) (exp iat : Int) (badKey raw : String) (st : Storage) :
    (exp < now →
       verify_token serverKey now (.signed ⟨sub, exp, iat⟩ serverKey)
         = .error .expired)
    ∧ (badKey ≠ serverKey →
       verify_token serverKey now (.signed ⟨sub, exp, iat⟩ badKey)
         = .error .invalid)
    ∧ verify_token serverKey now (.malformed raw) = .error .invalid
    ∧ TokenError.expired ≠ TokenError.invalid
    ∧ (now ≤ exp →
       verify_token serverKey now (.signed ⟨sub, exp, iat⟩ serverKey)
         = .ok ⟨sub, exp, iat⟩)
    ∧ (∀ tok e, verify_token serverKey now tok = .error e →
       ∃ d, get_current_user st serverKey now tok = .error (.unauthorized d)) := by
  refine ⟨?_, ?_, ?_, by decide, ?_, ?_⟩
  · intro h
    unfold verify_token
    simp [h]
  · intro h
    have hb : (badKey == serverKey) = false := beq_eq_false_iff_ne.mpr h
    unfold verify_token
    simp [hb]
  · rfl
  · intro h
    have hlt : ¬ (exp < now) := not_lt.mpr h
    unfold verify_token
    simp [hlt]
  · intro tok e hv
    unfold get_current_user
    rw [hv]
    exact ⟨e.detail, rfl⟩

/-- The row written by signup. -/
def signedUpItem (hp : HashPrimitives) (user : UserModel)
    (fresh_id salt : String) : UserItem :=
  { user_id := fresh_id, first_name := user.first_name
    last_name := user.last_name, email := user.email
    password := hash_password hp salt user.password }

/-- Signup with an already-registered email. -/
theorem signup_taken (hp : HashPrimitives) (serverKey : String) (now : Int)
    (st : Storage) (user : UserModel) (fresh_id salt : String) {ex : UserItem}
    (h : get_user_by_email st user.email = some ex) :
    signup hp serverKey now st user fresh_id salt
      = (.error .emailAlreadyRegistered, st) := by
  unfold signup
  rw [h]

/-- Signup with a fresh email, unfolded. -/
theorem signup_fresh (hp : HashPrimitives) (serverKey : String) (now : Int)
    (st : Storage) (user : UserModel) (fresh_id salt : String)
    (h : get_user_by_email st user.email = none) :
    signup hp serverKey now st user fresh_id salt
      = (.ok { user := userResponseOf (signedUpItem hp user fresh_id salt)
               token := create_access_token serverKey now fresh_id },
         { st with users := (putBy UserItem.user_id st.users
             (signedUpItem hp user fresh_id salt)) }) := by
  unfold signup dyn_create_user signedUpItem
  rw [h]

/-- Login when the email resolves and the password verifies. -/
theorem login_found (hp : HashPrimitives) (serverKey : String) (now : Int)
    {st : Storage} {email : String} {item : UserItem} (password : String)
    (hfind : get_user_by_email st email = some item)
    (hver : verify_password hp password item.password = true) :
    login hp serverKey now st email password
      = .ok { user := userResponseOf item
              token := create_access_token serverKey now item.user_id } := by
  unfold login
  rw [hfind]
  show (if !(verify_password hp password item.password) then
          (.error .invalidCredentials : Except ApiError AuthResponse)
        else .ok { user := userResponseOf item
                   token := create_access_token serverKey now item.user_id })
      = .ok { user := userResponseOf item
              token := create_access_token serverKey now item.user_id }
  rw [hver]
  rfl

/-- C9: with a fresh email, signup succeeds and stores as password only the
bcrypt hash (under the generated salt) of the fixed-output SHA-256 pre-digest
of the supplied password — the application of `hash_password` to the
arbitrary-length plain text, never the plain text itself — and returns a
token whose subject is the new user's id; an immediately following login with
the same email and password succeeds and returns a token whose subject equals
that id; and a second signup with the same email fails with the email-taken
validation error. -/
theorem signup_login_roundtrip (hp : HashPrimitives) (serverKey : String)
    (now now2 now3 : Int) (st : Storage) (user : UserModel)
    (fresh_id salt : String) (user2 : UserModel) (fresh2 salt2 : String)
    (hbc : hp.roundTrip)
    (hfresh : get_user_by_email st user.email = none)
    (hsame : user2.email = user.email) :
    ∃ resp st',
      signup hp serverKey now st user fresh_id salt = (.ok resp, st')
      ∧ resp.user.id = fresh_id
      ∧ resp.token.sub? = some fresh_id
      ∧ (∃ item, get_user_by_id st' fresh_id = some item
          ∧ item.password = hp.bcryptHashpw (hp.sha256hex user.password) salt)
      ∧ (∃ lresp, login hp serverKey now2 st' user.email user.password
            = .ok lresp
          ∧ lresp.token.sub? = some fresh_id)
      ∧ signup hp serverKey now3 st' user2 fresh2 salt2
          = (.error .emailAlreadyRegistered, st') := by
  refine ⟨_, _, signup_fresh hp serverKey now st user fresh_id salt hfresh,
    rfl, rfl, ?_, ?_, ?_⟩
  · refine ⟨signedUpItem hp user fresh_id salt, ?_, rfl⟩
    exact find?_putBy_self UserItem.user_id st.users
      (signedUpItem hp user fresh_id salt)
  · have hfind : get_user_by_email
        { st with users := (putBy UserItem.user_id st.users
            (signedUpItem hp user fresh_id salt)) } user.email
        = some (signedUpItem hp user fresh_id salt) := by
      refine find?_putBy_of_none UserItem.user_id
        (fun x => x.email == user.email) st.users
        (signedUpItem hp user fresh_id salt) hfresh ?_
      simp [signedUpItem]
    have hver : verify_password hp user.password
        (signedUpItem hp user fresh_id salt).password = true := hbc _ _
    exact ⟨_, login_found hp serverKey now2 user.password hfind hver, rfl⟩
  · have hfind2 : get_user_by_email
        { st with users := (putBy UserItem.user_id st.users
            (signedUpItem hp user fresh_id salt)) } user2.email
        = some (signedUpItem hp user fresh_id salt) := by
      rw [hsame]
      refine find?_putBy_of_none UserItem.user_id
        (fun x => x.email == user.email) st.users
        (signedUpItem hp user fresh_id salt) hfresh ?_
      simp [signedUpItem]
    exact signup_taken hp serverKey now3 _ user2 fresh2 salt2 hfind2

/-- Witness for C9: concrete signup then login on an initially empty store,
with degenerate primitives satisfying the bcrypt contract. -/
theorem signup_login_roundtrip_witness :
    wHash.roundTrip
    ∧ get_user_by_email { users := [], tags := [], resources := [] }
        (UserModel.mk "Ada" "L" "a@x.com" "pw").email = none
    ∧ (UserModel.mk "Ada" "L" "a@x.com" "pw").email
        = (UserModel.mk "Ada" "L" "a@x.com" "pw").email
    ∧ ∃ resp st',
        signup wHash "k" 0 { users := [], tags := [], resources := [] }
            (UserModel.mk "Ada" "L" "a@x.com" "pw") "U9" "s" = (.ok resp, st')
        ∧ resp.user.id = "U9"
        ∧ resp.token.sub? = some "U9"
        ∧ (∃ item, get_user_by_id st' "U9" = some item
            ∧ item.password = wHash.bcryptHashpw
                (wHash.sha256hex (UserModel.mk "Ada" "L" "a@x.com" "pw").password) "s")
        ∧ (∃ lresp, login wHash "k" 1 st'
              (UserModel.mk "Ada" "L" "a@x.com" "pw").email
              (UserModel.mk "Ada" "L" "a@x.com" "pw").password = .ok lresp
            ∧ lresp.token.sub? = some "U9")
        ∧ signup wHash "k" 2 st' (UserModel.mk "Ada" "L" "a@x.com" "pw") "U10" "s2"
            = (.error .emailAlreadyRegistered, st') :=
  ⟨fun _ _ => rfl, rfl, rfl,
   signup_login_roundtrip wHash "k" 0 1 2
     { users := [], tags := [], resources := [] }
     (UserModel.mk "Ada" "L" "a@x.com" "pw") "U9" "s"
     (UserModel.mk "Ada" "L" "a@x.com" "pw") "U10" "s2"
     (fun _ _ => rfl) rfl rfl⟩

/-- Materialization of a known-typed record, with the variant extra fields
characterized as functions of the stored record. -/
theorem resource_item_to_model_fields {st : Storage} {item : ResourceItem}
    {u : UserItem} (hu : get_user_by_id st item.user_id = some u)
    (ht4 : item.type_ = "article" ∨ item.type_ = "code_snippet"
       ∨ item.type_ = "book" ∨ item.type_ = "course") :
    ∃ m, resource_item_to_model st item = .ok m
      ∧ m.base = materializedBase st item u
      ∧ m.typeStr = item.type_
      ∧ m.urlField
          = (if item.type_ == "article" then some (item.url.getD "") else none)
      ∧ m.codeField
          = (if item.type_ == "code_snippet" then some (item.code.getD "")
             else none) := by
  rcases ht4 with ht | ht | ht | ht
  · exact ⟨_, resource_item_to_model_article hu ht, rfl, ht.symm,
      by rw [ht]; simp [ResourceModel.urlField],
      by rw [ht]; simp [ResourceModel.codeField]⟩
  · exact ⟨_, resource_item_to_model_code_snippet hu ht, rfl, ht.symm,
      by rw [ht]; simp [ResourceModel.urlField],
      by rw [ht]; simp [ResourceModel.codeField]⟩
  · exact ⟨_, resource_item_to_model_book hu ht, rfl, ht.symm,
      by rw [ht]; simp [ResourceModel.urlField],
      by rw [ht]; simp [ResourceModel.codeField]⟩
  · exact ⟨_, resource_item_to_model_course hu ht, rfl, ht.symm,
      by rw [ht]; simp [ResourceModel.urlField],
      by rw [ht]; simp [ResourceModel.codeField]⟩

/-- Selecting the variant by the input's own type literal recovers exactly
the input's `url` field. -/
theorem urlField_roundtrip (input : ResourceModelInput) :
    (if input.typeStr == "article" then some (input.urlField.getD "")
     else none) = input.urlField := by
  cases input <;> rfl

/-- Selecting the variant by the input's own type literal recovers exactly
the input's `code` field. -/
theorem codeField_roundtrip (input : ResourceModelInput) :
    (if input.typeStr == "code_snippet" then some (input.codeField.getD "")
     else none) = input.codeField := by
  cases input <;> rfl

/-- C1: the create–materialize round trip.  For any variant payload persisted
on behalf of an authenticated, stored user `u` whose supplied `tag_ids` all
resolve, the create succeeds and the returned materialized resource
reproduces the payload's title, description, type and variant extra fields
exactly (book/course payloads carry no author field, and book/course outputs
likewise carry none, so no author data round-trips), the resolved owner is
`u`'s response form, and the output tag list has exactly the Tag records of
the supplied `tag_ids` as members. -/
theorem create_materialize_roundtrip (st : Storage) (u : UserItem)
    (input : ResourceModelInput) (fresh_id created_at : String)
    (hu : get_user_by_id st u.user_id = some u)
    (ht : ∀ tid ∈ input.tag_ids, (get_tag_by_id st tid).isSome) :
    ∃ m st', create_resource st u input fresh_id created_at = (.ok m, st')
      ∧ m.base.title = input.title
      ∧ m.base.description = input.description
      ∧ m.typeStr = input.typeStr
      ∧ m.urlField = input.urlField
      ∧ m.codeField = input.codeField
      ∧ m.base.user = userResponseOf u
      ∧ (∀ tm : TagModel, tm ∈ m.base.tags ↔
          ∃ i ∈ input.tag_ids, ∃ t, get_tag_by_id st i = some t
            ∧ tm = TagModel.mk t.tag_id t.name) := by
  have hv : validateTagIds st input.tag_ids = none := validateTagIds_eq_none ht
  have hu2 : get_user_by_id
      { st with resources := (putBy ResourceItem.resource_id st.resources
          (createdItem input u fresh_id created_at)) }
      (createdItem input u fresh_id created_at).user_id = some u := hu
  rcases resource_item_to_model_fields hu2 (input_typeStr_known input)
    with ⟨m, hm, hbase, htype, hurl, hcode⟩
  refine ⟨m,
    { st with resources := (putBy ResourceItem.resource_id st.resources
        (createdItem input u fresh_id created_at)) },
    ?_, ?_, ?_, htype, ?_, ?_, ?_, ?_⟩
  · rw [create_resource_eq, hv, hm]
  · rw [hbase]
    rfl
  · rw [hbase]
    rfl
  · rw [hurl]
    exact urlField_roundtrip input
  · rw [hcode]
    exact codeField_roundtrip input
  · rw [hbase]
    rfl
  · intro tm
    rw [hbase]
    exact mem_materializedTags tm

/-- Witness for C1 at a concrete article payload with one existing tag. -/
theorem create_materialize_roundtrip_witness :
    get_user_by_id wStorage wOwner.user_id = some wOwner
    ∧ (∀ tid ∈ wInput.tag_ids, (get_tag_by_id wStorage tid).isSome)
    ∧ ∃ m st', create_resource wStorage wOwner wInput "R2" "t1" = (.ok m, st')
        ∧ m.base.title = wInput.title
        ∧ m.base.description = wInput.description
        ∧ m.typeStr = wInput.typeStr
        ∧ m.urlField = wInput.urlField
        ∧ m.codeField = wInput.codeField
        ∧ m.base.user = userResponseOf wOwner
        ∧ (∀ tm : TagModel, tm ∈ m.base.tags ↔
            ∃ i ∈ wInput.tag_ids, ∃ t, get_tag_by_id wStorage i = some t
              ∧ tm = TagModel.mk t.tag_id t.name) :=
  ⟨by decide, by decide,
   create_materialize_roundtrip wStorage wOwner wInput "R2" "t1"
     (by decide) (by decide)⟩

/-- Witness for C2 at a concrete storage and payload: `"Tgone"` has no Tag
row, so the create fails and leaves the store alone. -/
theorem create_rejects_missing_tags_witness :
    (∃ tid ∈ (ResourceModelInput.article "X" "Y" ["T1", "Tgone"] "u").tag_ids,
        get_tag_by_id wStorage tid = none)
    ∧ ∃ missing,
        create_resource wStorage wOwner
            (ResourceModelInput.article "X" "Y" ["T1", "Tgone"] "u") "R9" "t0"
          = (.error (.tagsDoNotExist missing), wStorage)
        ∧ missing ≠ []
        ∧ (∀ x, x ∈ missing ↔
            x ∈ (ResourceModelInput.article "X" "Y" ["T1", "Tgone"] "u").tag_ids
              ∧ get_tag_by_id wStorage x = none) :=
  ⟨by decide,
   create_rejects_missing_tags wStorage wOwner
     (ResourceModelInput.article "X" "Y" ["T1", "Tgone"] "u") "R9" "t0" (by decide)⟩

end MethodKnow
